import Mathlib

/-!
Shallow embedding of the workflow-orchestration core of the
`sitecrafter` backend (LangGraph website generator), translated from:
  - `src/src/agents/langgraph/nodes/blueprint-node.ts`
    (blueprint node, chat-response node, graph construction `buildGraph`,
    the streaming callback registry, and the driver `generateWebsite`);
  - `src/src/index.ts` (the intent-router node with API-key rotation);
  - `src/unnamed/part_000` (`UIService.selectComponents` with its
    module-level selection cache, and the modification service).

LLM calls are embedded as oracle functions (one result per attempt
number); a thrown JavaScript exception is an explicit constructor.
Module-level mutable globals (the credential index, the callback
registry, the selection cache) are threaded as explicit state.
-/

/-- A generated project file, identified by its path
(`GeneratedFile` of `graph-state.ts`, as used by the nodes in src). -/
structure GeneratedFile where
  path : String
  content : String
deriving DecidableEq, Repr

/-- A validation finding carried in `state.errors`
(shape per the spec's ValidationError: file + message). -/
structure ValidationError where
  file : String
  message : String
deriving DecidableEq, Repr

/-- A page entry as produced by `extractPagesWithLLM`
(`blueprint-node.ts`): name, route, description, sections, components. -/
structure PageSpec where
  name : String
  route : String
  description : String
  sections : List String
  components : List String
deriving DecidableEq, Repr

/-- The slice of `ProjectBlueprint` read by the nodes modelled here
(`chatResponseNode`'s fallback reads `projectName` and `pages.length`). -/
structure ProjectBlueprint where
  projectName : String
  description : String
  pages : List PageSpec
deriving DecidableEq, Repr

/-- The slice of `WebsiteState` (LangGraph channel state) read and
written by the modelled nodes.  `files` is the insertion-ordered
path-keyed map; `requestIntent` is unset (`none`) until the router
sets it. -/
structure WebsiteState where
  userPrompt : String
  files : List (String × GeneratedFile)
  blueprint : Option ProjectBlueprint
  requestIntent : Option String
  isModification : Bool
  chatResponse : Option String
  messages : List String
  errors : List ValidationError
  iterationCount : Nat
deriving DecidableEq, Repr

/-- A node's partial state update (`Partial<WebsiteState>`): a field
that is absent from the returned object is `none` / `[]` here and
leaves the accumulated state untouched on merge. -/
structure PartialState where
  requestIntent : Option String := none
  isModification : Option Bool := none
  chatResponse : Option String := none
  files : Option (List (String × GeneratedFile)) := none
  errors : Option (List ValidationError) := none
  iterationCount : Option Nat := none
  messages : List String := []
deriving DecidableEq, Repr

/-- Upsert one path-keyed entry (add if the path is new, overwrite
in place if it exists). -/
def upsertFile (m : List (String × GeneratedFile)) (k : String) (v : GeneratedFile) :
    List (String × GeneratedFile) :=
  match m with
  | [] => [(k, v)]
  | (k', v') :: rest =>
      if k' = k then (k, v) :: rest else (k', v') :: upsertFile rest k v

/-- Upsert every entry of a partial files map into the accumulated map. -/
def upsertAll (m new : List (String × GeneratedFile)) : List (String × GeneratedFile) :=
  match new with
  | [] => m
  | (k, v) :: rest => upsertAll (upsertFile m k v) rest

/-- Modelled from the spec: the LangGraph channel reducers declared in
`graph-state.ts` (`WebsiteStateAnnotation`) are not in src; per spec
§4.2 the merge is a shallow merge — scalar fields present in the
partial update replace the prior value, `files` entries are upserted by
key, `messages` are appended, `errors` are replaced wholesale. -/
def mergeState (s : WebsiteState) (p : PartialState) : WebsiteState :=
  { userPrompt := s.userPrompt
    files := match p.files with
             | none => s.files
             | some fs => upsertAll s.files fs
    blueprint := s.blueprint
    requestIntent := match p.requestIntent with
                     | none => s.requestIntent
                     | some v => some v
    isModification := p.isModification.getD s.isModification
    chatResponse := match p.chatResponse with
                    | none => s.chatResponse
                    | some v => some v
    messages := s.messages ++ p.messages
    errors := match p.errors with
              | none => s.errors
              | some es => es
    iterationCount := p.iterationCount.getD s.iterationCount }

/-!  ## The workflow graph (`buildGraph` in `blueprint-node.ts`)  -/

/-- The unconditional `addEdge` calls of `buildGraph` (source → target);
`__end__` stands for LangGraph's `END`. -/
def staticEdges : List (String × String) :=
  [("__start__", "intent_router"),
   ("chat_response", "__end__"),
   ("modification_analyzer", "repair_step"),
   ("blueprint_step", "structure_step"),
   ("structure_step", "core_step"),
   ("core_step", "components_step"),
   ("components_step", "pages_step"),
   ("pages_step", "validation_step"),
   ("repair_step", "validation_step")]

/-- The conditional edge leaving `intent_router`: the `switch` on
`state.requestIntent` in `buildGraph` ('question'/'explain' →
chat_response, 'modify' → modification_analyzer, 'create' and the
default case → blueprint_step). -/
def routeIntent (requestIntent : Option String) : String :=
  match requestIntent with
  | some s =>
      if s = "question" ∨ s = "explain" then "chat_response"
      else if s = "modify" then "modification_analyzer"
      else "blueprint_step"
  | none => "blueprint_step"

/-- The conditional edge leaving `validation_step` in `buildGraph`:
no errors → end; `iterationCount >= 3` → end; otherwise repair. -/
def validationRoute (s : WebsiteState) : String :=
  if s.errors.length = 0 then "end"
  else if 3 ≤ s.iterationCount then "end"
  else "repair_step"

/-- Modelled from the spec: `repair-node.ts` is not in src; per spec
§4.1 the repair stage "attempts to fix the reported errors …,
increments `iterationCount`, and unconditionally routes back to
validation (re-validate the whole file set)".  The re-validation's
fresh error list is supplied by the oracle `validate`, indexed by the
iteration count after the increment; spec §4.2/§3 give `errors` full
replacement semantics. -/
def repairThenValidate (validate : Nat → List ValidationError) (s : WebsiteState) :
    WebsiteState :=
  { s with iterationCount := s.iterationCount + 1,
           errors := validate (s.iterationCount + 1) }

/-- Fuel-bounded execution of the validate→repair→validate cycle:
starting at the conditional edge after a validation pass, follow
`repair_step` edges (each repair returns to validation per the
`repair_step → validation_step` edge) until the edge selects `end`. -/
def runValidationLoop (validate : Nat → List ValidationError) :
    Nat → WebsiteState → WebsiteState
  | 0, s => s
  | fuel + 1, s =>
      if validationRoute s = "repair_step" then
        runValidationLoop validate fuel (repairThenValidate validate s)
      else s

/-!  ## The intent router (`intentRouterNode` in `src/src/index.ts`)  -/

/-- JavaScript `String.prototype.toLowerCase` (character-wise
lowercasing), over the string's character list. -/
def lowerStr (s : String) : String :=
  String.mk (s.data.map Char.toLower)

/-- Whitespace as stripped by `String.prototype.trim`. -/
def isJsSpace (c : Char) : Bool :=
  c = ' ' || c = '\t' || c = '\n' || c = '\r'

/-- JavaScript `String.prototype.trim`: strip leading and trailing
whitespace. -/
def trimStr (s : String) : String :=
  String.mk (((s.data.dropWhile isJsSpace).reverse.dropWhile isJsSpace).reverse)

/-- Whether the first list is a prefix of the second. -/
def prefixChars : List Char → List Char → Bool
  | [], _ => true
  | _ :: _, [] => false
  | a :: as, b :: bs => a = b && prefixChars as bs

/-- Whether `needle` occurs as a contiguous sublist of the second list. -/
def inclChars (needle : List Char) : List Char → Bool
  | [] => prefixChars needle []
  | b :: bs => prefixChars needle (b :: bs) || inclChars needle bs

/-- JavaScript `haystack.includes(needle)`: substring containment. -/
def strIncludes (haystack needle : String) : Bool :=
  inclChars needle.data haystack.data

/-- `MODIFY_KEYWORDS` of `index.ts`. -/
def MODIFY_KEYWORDS : List String :=
  ["add", "change", "update", "modify", "edit", "remove", "delete",
   "fix", "improve", "enhance", "create new", "add new", "include",
   "put", "place", "insert", "make", "build"]

/-- `QUESTION_KEYWORDS` of `index.ts`. -/
def QUESTION_KEYWORDS : List String :=
  ["where is", "where are", "where can i find", "how do i",
   "what is", "what are", "which", "explain", "show me",
   "tell me", "describe", "help me understand", "can you explain"]

/-- `MODIFY_KEYWORDS.some(kw => userPrompt.includes(kw))` on the
lowercased prompt. -/
def hasModifyKeywordsOf (userPrompt : String) : Bool :=
  MODIFY_KEYWORDS.any (fun kw => strIncludes (lowerStr userPrompt) kw)

/-- `QUESTION_KEYWORDS.some(kw => userPrompt.includes(kw))` on the
lowercased prompt. -/
def hasQuestionKeywordsOf (userPrompt : String) : Bool :=
  QUESTION_KEYWORDS.any (fun kw => strIncludes (lowerStr userPrompt) kw)

/-- One attempt of an LLM call, as observed by the caller: either the
promise rejected (a thrown error, caught by the `catch` block) or it
resolved with the message content. -/
inductive LLMAttempt where
  | thrown
  | ok (content : String)
deriving DecidableEq, Repr

/-- `rotateApiKey` of `index.ts`: advance the shared credential index
round-robin, but only when the pool has more than one key. -/
def rotateApiKey (poolSize idx : Nat) : Nat :=
  if 1 < poolSize then (idx + 1) % poolSize else idx

/-- The intent computed from a successful response: lowercase + trim
(empty content falls back to 'modify' via `|| 'modify'`), accept it if
it is one of the four known intents, otherwise fall back to
question/modify by keyword. -/
def interpretIntent (content : String) (hasQuestionKeywords : Bool) : String :=
  let intentRaw :=
    if trimStr (lowerStr content) = "" then "modify" else trimStr (lowerStr content)
  if intentRaw ∈ ["create", "modify", "question", "explain"] then intentRaw
  else if hasQuestionKeywords then "question" else "modify"

/-- Result of a run of `intentRouterNode`: the partial state update it
returns, the shared credential index afterwards, and how many LLM
calls were issued. -/
structure RouterOutcome where
  part : PartialState
  keyIdx : Nat
  llmCalls : Nat
deriving DecidableEq, Repr

/-- The `for (attempt = 1; attempt <= maxRetries; ...)` retry loop of
`intentRouterNode`, with `maxRetries = 3`.  On success the intent is
interpreted and returned; on a thrown error the key rotates, the loop
continues while `attempt < 3`, and on the last attempt the
keyword-based fallback is returned.  The first argument after the
fixed parameters is the remaining number of loop iterations (the
return after the loop, line 1666 of `index.ts`, is the `0` case). -/
def routerLoop (hasExistingFiles hasModifyKeywords hasQuestionKeywords : Bool)
    (llm : Nat → LLMAttempt) (poolSize : Nat) :
    Nat → Nat → Nat → Nat → RouterOutcome
  | 0, _, idx, calls =>
      let fi := if hasQuestionKeywords then "question" else "modify"
      ⟨{ requestIntent := some fi, isModification := some (decide (fi = "modify")) },
       idx, calls⟩
  | remaining + 1, attempt, idx, calls =>
      match llm attempt with
      | .ok content =>
          let intent := interpretIntent content hasQuestionKeywords
          ⟨{ requestIntent := some intent,
             isModification := some (decide (intent = "modify")) },
           idx, calls + 1⟩
      | .thrown =>
          let idx' := rotateApiKey poolSize idx
          if attempt < 3 then
            routerLoop hasExistingFiles hasModifyKeywords hasQuestionKeywords llm
              poolSize remaining (attempt + 1) idx' (calls + 1)
          else
            let fi := if hasExistingFiles = false then "create"
                      else if hasQuestionKeywords then "question"
                      else if hasModifyKeywords then "modify"
                      else "modify"
            ⟨{ requestIntent := some fi,
               isModification := some (decide (fi = "modify")) },
             idx', calls + 1⟩

/-- `intentRouterNode` of `index.ts`: if no files and no blueprint
exist (`!hasExistingFiles && !hasBlueprint`), return intent 'create'
immediately (no LLM call); otherwise run the LLM-classification retry
loop with the keyword flags computed from the lowercased prompt. -/
def intentRouterNode (s : WebsiteState) (llm : Nat → LLMAttempt)
    (poolSize idx : Nat) : RouterOutcome :=
  if s.files = [] ∧ s.blueprint = none then
    ⟨{ requestIntent := some "create", isModification := some false }, idx, 0⟩
  else
    routerLoop (decide (0 < s.files.length)) (hasModifyKeywordsOf s.userPrompt)
      (hasQuestionKeywordsOf s.userPrompt) llm poolSize 3 1 idx 0

/-!  ## The chat-response node (`chat-response-node.ts`)  -/

/-- `chatResponseNode`: answer the user's question via the LLM; on
success the partial update carries `chatResponse` and a message; on a
thrown error a deterministic fallback string is built from the file
count and blueprint.  No path of the node touches `files`. -/
def chatResponseNode (s : WebsiteState) (llm : LLMAttempt) : PartialState :=
  match llm with
  | .ok content =>
      let answer :=
        if content = "" then "I couldn't find information about that in this project."
        else content
      { chatResponse := some answer, messages := [" " ++ answer] }
  | .thrown =>
      let base := "I encountered an error while processing your question. "
      let fallbackResponse :=
        if 0 < s.files.length then
          let withFiles := base ++ "However, I can tell you that this project has "
            ++ toString s.files.length ++ " files. "
          match s.blueprint with
          | some bp =>
              withFiles ++ "The project is called \"" ++ bp.projectName
                ++ "\" and has " ++ toString bp.pages.length ++ " pages."
          | none => withFiles
        else base
      { chatResponse := some fallbackResponse, messages := [" " ++ fallbackResponse] }

/-- The question/explain branch of the graph after routing: run
`chat_response` on the merged state and merge its partial update; the
`chat_response → END` edge then terminates the run. -/
def runChatBranch (s : WebsiteState) (llm : LLMAttempt) : WebsiteState :=
  mergeState s (chatResponseNode s llm)

/-!  ## Page extraction (`extractPagesWithLLM` in `blueprint-node.ts`)  -/

/-- One attempt of the page-extraction call: the call threw, or it
returned content with no JSON array in it (`jsonMatch` null — the loop
just moves on), or a JSON array of pages was extracted and parsed. -/
inductive PageAttempt where
  | thrown
  | noJson
  | pages (ps : List PageSpec)
deriving DecidableEq, Repr

/-- `rotateBlueprintKey` of `blueprint-node.ts`: same round-robin
advance as `rotateApiKey`, on the blueprint module's own index. -/
def rotateBlueprintKey (poolSize idx : Nat) : Nat :=
  if 1 < poolSize then (idx + 1) % poolSize else idx

/-- The hard-coded minimal fallback page set of `extractPagesWithLLM`,
used only when all retries fail. -/
def fallbackPages : List PageSpec :=
  [{ name := "HomePage", route := "/", description := "Main landing page",
     sections := ["Hero", "Features", "CTA"],
     components := ["Hero", "FeatureGrid"] },
   { name := "NotFoundPage", route := "*", description := "404 error page",
     sections := ["ErrorMessage"],
     components := ["ErrorDisplay"] }]

/-- The retry loop of `extractPagesWithLLM` (`maxRetries = 3`): return
the parsed pages on a successful extraction; on a thrown error rotate
the blueprint key and continue; on content without a JSON match just
continue; after the loop return `fallbackPages`.  Result is the page
list and the blueprint key index afterwards. -/
def extractPagesWithLLM (llm : Nat → PageAttempt) (poolSize : Nat) :
    Nat → Nat → Nat → List PageSpec × Nat
  | 0, _, idx => (fallbackPages, idx)
  | remaining + 1, attempt, idx =>
      match llm attempt with
      | .pages ps => (ps, idx)
      | .noJson => extractPagesWithLLM llm poolSize remaining (attempt + 1) idx
      | .thrown =>
          extractPagesWithLLM llm poolSize remaining (attempt + 1)
            (rotateBlueprintKey poolSize idx)

/-- Entry point of the page-extraction stage: three attempts starting
at attempt 1 with the current blueprint key index. -/
def extractPagesRun (llm : Nat → PageAttempt) (poolSize idx : Nat) :
    List PageSpec × Nat :=
  extractPagesWithLLM llm poolSize 3 1 idx

/-!  ## Streaming callbacks and the driver (`blueprint-node.ts`)  -/

/-- The module-level callback registry of the graph module
(`globalFileCallback` / `globalPhaseCallback`).  Callback identity is
abstracted to a `Nat` tag; `none` means no callback registered. -/
structure CallbackRegistry where
  globalFileCallback : Option Nat
  globalPhaseCallback : Option Nat
deriving DecidableEq, Repr

/-- `setFileCallback`. -/
def setFileCallback (cb : Option Nat) (r : CallbackRegistry) : CallbackRegistry :=
  { r with globalFileCallback := cb }

/-- `setPhaseCallback`. -/
def setPhaseCallback (cb : Option Nat) (r : CallbackRegistry) : CallbackRegistry :=
  { r with globalPhaseCallback := cb }

/-- The value `generateWebsite` returns to its caller on success. -/
structure GraphOutput where
  files : List (String × GeneratedFile)
  errors : List ValidationError
  messages : List String
deriving DecidableEq, Repr

/-- `generateWebsite` of `blueprint-node.ts`, as a state transformer on
the callback registry: install the two callbacks, invoke the compiled
graph (an oracle that sees the registry in effect while it runs and
either resolves or rejects), and in the `finally` block clear both
callbacks before returning or rethrowing. -/
def generateWebsite (onFileGenerated onPhaseChange : Option Nat)
    (graphInvoke : CallbackRegistry → Except String GraphOutput)
    (reg : CallbackRegistry) : Except String GraphOutput × CallbackRegistry :=
  let reg1 := setPhaseCallback onPhaseChange (setFileCallback onFileGenerated reg)
  match graphInvoke reg1 with
  | .ok result => (.ok result, setPhaseCallback none (setFileCallback none reg1))
  | .error e => (.error e, setPhaseCallback none (setFileCallback none reg1))

/-!  ## `UIService.selectComponents` (`src/unnamed/part_000`)  -/

/-- Lookup in a string-keyed association list (models `Map.has`/`get`;
`Map.set` is modelled by consing, which shadows older entries exactly
as `set` replaces them). -/
def mapLookup {α : Type} (m : List (String × α)) (k : String) : Option α :=
  match m with
  | [] => none
  | (k', v) :: rest => if k' = k then some v else mapLookup rest k

/-- An entry of the `text` component catalog (`ui/components`), keyed
externally by component name. -/
structure UICatalogEntry where
  description : String
  codesnippet : String
  dependencies : String
deriving DecidableEq, Repr

/-- `UIComponent` of the UIService. -/
structure UIComponent where
  name : String
  description : String
  codesnippet : String
  dependencies : String
deriving DecidableEq, Repr

/-- `UISelectionResult` of the UIService. -/
structure UISelectionResult where
  selectedComponents : List UIComponent
  formattedForPrompt : String
deriving DecidableEq, Repr

/-- `UIService.getComponentDetails`: map each selected name to its
catalog entry, dropping names not present in the catalog. -/
def getComponentDetails (cat : List (String × UICatalogEntry))
    (componentNames : List String) : List UIComponent :=
  componentNames.filterMap fun nm =>
    (mapLookup cat nm).map fun e =>
      { name := nm, description := e.description,
        codesnippet := e.codesnippet, dependencies := e.dependencies }

/-- Deterministic rendering of one component's data block
(the source serializes the same four fields with `JSON.stringify`;
the exact serialization syntax is immaterial here and is modelled as
a plain field listing). -/
def renderComponentData (c : UIComponent) : String :=
  "name: " ++ c.name ++ "\ndescription: " ++ c.description
    ++ "\ncodesnippet: " ++ c.codesnippet
    ++ "\ndependencies: " ++ c.dependencies

/-- `UIService.formatSelectedComponentsForPrompt`: empty selection
yields the empty string, otherwise the compulsory-use header followed
by the serialized component data. -/
def formatSelectedComponentsForPrompt (components : List UIComponent) : String :=
  if components = [] then ""
  else
    "\n\nCOMPULSORY USE ALL THESE UI COMPONENTS IN YOUR IMPLEMENTATION:\n\n"
      ++ String.intercalate "\n" (components.map renderComponentData) ++ "\n"

/-- One attempt of the selection call: thrown anywhere in the `try`
(request, JSON parse), or successfully parsed `selectedComponents`
names (`parsed.selectedComponents || []`). -/
inductive SelectAttempt where
  | thrown
  | ok (selectedComponentNames : List String)
deriving DecidableEq, Repr

/-- The result object built on the success path of `selectComponents`. -/
def mkSelectionResult (cat : List (String × UICatalogEntry))
    (names : List String) : UISelectionResult :=
  let selectedComponents := getComponentDetails cat names
  { selectedComponents,
    formattedForPrompt := formatSelectedComponentsForPrompt selectedComponents }

/-- Outcome of one `selectComponents` call: its returned result, the
selection cache afterwards, the shared key index afterwards, and the
number of model requests issued. -/
structure SelectOutcome where
  result : UISelectionResult
  cache : List (String × UISelectionResult)
  keyIdx : Nat
  modelCalls : Nat
deriving DecidableEq, Repr

/-- The retry loop of `UIService.selectComponents` (`maxRetries = 3`):
on success, build the result, store it in the cache under `cacheKey`
and return it; on a thrown error rotate the key (both catch paths
rotate exactly once) and try again; after exhaustion return the empty
result WITHOUT caching it. -/
def selectLoop (cat : List (String × UICatalogEntry))
    (llm : Nat → SelectAttempt) (cacheKey : String)
    (cache : List (String × UISelectionResult)) (poolSize : Nat) :
    Nat → Nat → Nat → Nat → SelectOutcome
  | 0, _, idx, calls =>
      ⟨{ selectedComponents := [], formattedForPrompt := "" }, cache, idx, calls⟩
  | remaining + 1, attempt, idx, calls =>
      match llm attempt with
      | .ok names =>
          let result := mkSelectionResult cat names
          ⟨result, (cacheKey, result) :: cache, idx, calls + 1⟩
      | .thrown =>
          selectLoop cat llm cacheKey cache poolSize remaining (attempt + 1)
            (rotateApiKey poolSize idx) (calls + 1)

/-- `UIService.selectComponents`: key the cache by the trimmed
requirements; a cache hit returns the stored result with no model
request; a miss runs the retry loop. -/
def selectComponents (cat : List (String × UICatalogEntry))
    (llm : Nat → SelectAttempt) (cache : List (String × UISelectionResult))
    (poolSize idx : Nat) (requirements : String) : SelectOutcome :=
  let cacheKey := trimStr requirements
  match mapLookup cache cacheKey with
  | some r => ⟨r, cache, idx, 0⟩
  | none => selectLoop cat llm cacheKey cache poolSize 3 1 idx 0

theorem validationRoute_cases (s : WebsiteState) :
    validationRoute s = "end" ∨ validationRoute s = "repair_step" := by
  unfold validationRoute
  split
  · exact Or.inl rfl
  · split
    · exact Or.inl rfl
    · exact Or.inr rfl

theorem runValidationLoop_iteration_le
    (validate : Nat → List ValidationError) (fuel : Nat) (s : WebsiteState)
    (h : s.iterationCount ≤ 3) :
    (runValidationLoop validate fuel s).iterationCount ≤ 3 := by
  induction fuel generalizing s with
  | zero => simpa [runValidationLoop] using h
  | succ n ih =>
      unfold runValidationLoop
      by_cases hr : validationRoute s = "repair_step"
      · simp only [hr, if_pos rfl]
        apply ih
        unfold validationRoute at hr
        by_cases he : s.errors.length = 0
        · simp [he] at hr
        · by_cases hi : 3 ≤ s.iterationCount
          · simp [he, hi] at hr
          · simp [repairThenValidate]
            omega
      · simp [hr, h]

theorem runValidationLoop_terminates
    (validate : Nat → List ValidationError)
    (fuel : Nat) (s : WebsiteState)
    (h : 4 ≤ s.iterationCount + fuel) :
    validationRoute (runValidationLoop validate fuel s) = "end" := by
  induction fuel generalizing s with
  | zero =>
      simp only [runValidationLoop]
      unfold validationRoute
      by_cases he : s.errors.length = 0
      · simp [he]
      · have : 3 ≤ s.iterationCount := by omega
        simp [he, this]
  | succ n ih =>
      unfold runValidationLoop
      by_cases hr : validationRoute s = "repair_step"
      · simp only [hr, if_pos rfl]
        apply ih
        simp [repairThenValidate]
        omega
      · rcases validationRoute_cases s with hend | hrep
        · simpa [hr] using hend
        · exact absurd hrep hr

theorem runValidationLoop_stops_if_not_repair
    (validate : Nat → List ValidationError) (fuel : Nat) (s : WebsiteState)
    (h : validationRoute s ≠ "repair_step") :
    runValidationLoop validate fuel s = s := by
  cases fuel with
  | zero => rfl
  | succ n => simp [runValidationLoop, h]

/-- C1: the conditional edge leaving `validation_step` decides from the
state alone: empty `errors` → end (success); otherwise
`iterationCount >= 3` → end with the remaining errors intact (the edge
is a pure reader, so the loop terminates immediately with the state —
and hence its error list — unchanged: a degraded success, not a
failure); otherwise → repair. -/
theorem validation_edge_decision (s : WebsiteState) :
    (s.errors = [] → validationRoute s = "end") ∧
    (s.errors ≠ [] → 3 ≤ s.iterationCount →
       validationRoute s = "end" ∧
       ∀ validate fuel, runValidationLoop validate fuel s = s) ∧
    (s.errors ≠ [] → s.iterationCount < 3 → validationRoute s = "repair_step") := by
  refine ⟨fun he => ?_, fun he hi => ⟨?_, fun validate fuel => ?_⟩, fun he hi => ?_⟩
  · simp [validationRoute, he]
  · have hlen : s.errors.length ≠ 0 := by simpa using he
    simp [validationRoute, hlen, hi]
  · apply runValidationLoop_stops_if_not_repair
    have hlen : s.errors.length ≠ 0 := by simpa using he
    simp [validationRoute, hlen, hi]
  · have hlen : s.errors.length ≠ 0 := by simpa using he
    simp [validationRoute, hlen, hi, Nat.not_le.mpr hi]

/-- Sample state sitting at the validation edge with one remaining
error at the iteration cap. -/
def cappedState : WebsiteState :=
  { userPrompt := "a bakery site", files := [], blueprint := none,
    requestIntent := some "create", isModification := false,
    chatResponse := none, messages := [],
    errors := [{ file := "src/App.tsx", message := "missing import" }],
    iterationCount := 3 }

theorem validation_edge_decision_witness :
    cappedState.errors ≠ [] ∧ 3 ≤ cappedState.iterationCount ∧
    validationRoute cappedState = "end" ∧
    runValidationLoop (fun _ => []) 7 cappedState = cappedState := by
  have h := (validation_edge_decision cappedState).2.1 (by decide) (by decide)
  exact ⟨by decide, by decide, h.1, h.2 (fun _ => []) 7⟩

/-- C2: repair-loop termination — if every validation pass keeps
producing at least one error, a run entering the validation edge with
`iterationCount = 0` reaches the terminal `end` decision within the
loop, with the final iteration count at most 3 (the
`iterationCount >= 3` bound is the hard stop). -/
theorem repair_loop_bounded
    (validate : Nat → List ValidationError) (s : WebsiteState) (fuel : Nat)
    (hv : ∀ n, validate n ≠ [])
    (h0 : s.iterationCount = 0) (hfuel : 4 ≤ fuel) :
    validationRoute (runValidationLoop validate fuel s) = "end" ∧
    (runValidationLoop validate fuel s).iterationCount ≤ 3 := by
  refine ⟨runValidationLoop_terminates validate fuel s (by omega),
          runValidationLoop_iteration_le validate fuel s (by omega)⟩

/-- Sample state entering the loop at iteration 0 with one error. -/
def loopStartState : WebsiteState :=
  { cappedState with iterationCount := 0 }

theorem repair_loop_bounded_witness :
    (∀ n : Nat,
       (fun _ : Nat => [({ file := "src/App.tsx", message := "missing import" } :
          ValidationError)]) n ≠ []) ∧
    loopStartState.iterationCount = 0 ∧
    validationRoute (runValidationLoop
      (fun _ => [{ file := "src/App.tsx", message := "missing import" }])
      4 loopStartState) = "end" ∧
    (runValidationLoop
      (fun _ => [{ file := "src/App.tsx", message := "missing import" }])
      4 loopStartState).iterationCount ≤ 3 := by
  have hv : ∀ n : Nat,
      (fun _ : Nat => [({ file := "src/App.tsx", message := "missing import" } :
         ValidationError)]) n ≠ [] := by
    intro n
    simp
  have h := repair_loop_bounded
    (fun _ => [{ file := "src/App.tsx", message := "missing import" }])
    loopStartState 4 hv (by decide) (by decide)
  exact ⟨hv, by decide, h.1, h.2⟩

/-- C3: the intent-based branch table after `intent_router`:
question/explain → chat_response → END; modify →
modification_analyzer → repair_step → validation_step; create and any
unmatched value → the creation pipeline blueprint → structure → core →
components → pages → validation. -/
theorem intent_branch_table :
    routeIntent (some "question") = "chat_response" ∧
    routeIntent (some "explain") = "chat_response" ∧
    ("chat_response", "__end__") ∈ staticEdges ∧
    routeIntent (some "modify") = "modification_analyzer" ∧
    ("modification_analyzer", "repair_step") ∈ staticEdges ∧
    ("repair_step", "validation_step") ∈ staticEdges ∧
    routeIntent (some "create") = "blueprint_step" ∧
    (∀ ri : Option String, ri ≠ some "question" → ri ≠ some "explain" →
       ri ≠ some "modify" → routeIntent ri = "blueprint_step") ∧
    ("blueprint_step", "structure_step") ∈ staticEdges ∧
    ("structure_step", "core_step") ∈ staticEdges ∧
    ("core_step", "components_step") ∈ staticEdges ∧
    ("components_step", "pages_step") ∈ staticEdges ∧
    ("pages_step", "validation_step") ∈ staticEdges := by
  refine ⟨by decide, by decide, by decide, by decide, by decide, by decide, by decide,
          ?_, by decide, by decide, by decide, by decide, by decide⟩
  intro ri h1 h2 h3
  match ri with
  | none => rfl
  | some str =>
      have hs1 : str ≠ "question" := fun h => h1 (by rw [h])
      have hs2 : str ≠ "explain" := fun h => h2 (by rw [h])
      have hs3 : str ≠ "modify" := fun h => h3 (by rw [h])
      simp [routeIntent, hs1, hs2, hs3]

theorem intent_branch_table_witness :
    routeIntent (some "summarize") = "blueprint_step" :=
  intent_branch_table.2.2.2.2.2.2.2.1 (some "summarize")
    (by decide) (by decide) (by decide)

/-- C4: with an empty files map and no blueprint, the router returns
intent 'create' immediately — whatever the prompt contains and
whatever the LLM oracle would have answered — issuing zero model
calls and leaving the credential index untouched. -/
theorem router_empty_project_creates
    (s : WebsiteState) (llm : Nat → LLMAttempt) (poolSize idx : Nat)
    (hf : s.files = []) (hb : s.blueprint = none) :
    intentRouterNode s llm poolSize idx =
      ⟨{ requestIntent := some "create", isModification := some false }, idx, 0⟩ := by
  simp [intentRouterNode, hf, hb]

/-- Fresh-session state whose prompt is stuffed with both modify
keywords ('add', 'fix', 'make') and question keywords ('where is'). -/
def freshPromptState : WebsiteState :=
  { userPrompt := "add and fix and make it, where is the header?",
    files := [], blueprint := none, requestIntent := none,
    isModification := false, chatResponse := none, messages := [],
    errors := [], iterationCount := 0 }

theorem router_empty_project_creates_witness :
    hasModifyKeywordsOf freshPromptState.userPrompt = true ∧
    hasQuestionKeywordsOf freshPromptState.userPrompt = true ∧
    intentRouterNode freshPromptState (fun _ => .ok "modify") 11 4 =
      ⟨{ requestIntent := some "create", isModification := some false }, 4, 0⟩ := by
  refine ⟨by decide, by decide, ?_⟩
  exact router_empty_project_creates freshPromptState (fun _ => .ok "modify") 11 4
    rfl rfl

theorem routerLoop_files_none
    (he hm hq : Bool) (llm : Nat → LLMAttempt) (poolSize : Nat) :
    ∀ remaining attempt idx calls,
      (routerLoop he hm hq llm poolSize remaining attempt idx calls).part.files
        = none := by
  intro remaining
  induction remaining with
  | zero => intro attempt idx calls; rfl
  | succ n ih =>
      intro attempt idx calls
      unfold routerLoop
      cases llm attempt with
      | ok c => rfl
      | thrown =>
          by_cases h : attempt < 3
          · simp only [h, if_pos]
            exact ih (attempt + 1) (rotateApiKey poolSize idx) (calls + 1)
          · simp only [h, if_neg]
            rfl

theorem intentRouterNode_files_none
    (s : WebsiteState) (llm : Nat → LLMAttempt) (poolSize idx : Nat) :
    (intentRouterNode s llm poolSize idx).part.files = none := by
  unfold intentRouterNode
  by_cases h : s.files = [] ∧ s.blueprint = none
  · rw [if_pos h]
  · rw [if_neg h]
    exact routerLoop_files_none _ _ _ llm poolSize 3 1 idx 0

theorem chatResponseNode_files_none (s : WebsiteState) (llm : LLMAttempt) :
    (chatResponseNode s llm).files = none := by
  cases llm <;> rfl

theorem mergeState_files_of_none (s : WebsiteState) (p : PartialState)
    (h : p.files = none) : (mergeState s p).files = s.files := by
  simp [mergeState, h]

/-- C5: whenever routing lands on question/explain, the conditional
edge selects `chat_response`, and the final state of the branch (after
the chat node's partial update is merged and the `chat_response → END`
edge fires) carries a files map identical to the one that entered the
routing stage — on the success path and the fallback path of the chat
node alike. -/
theorem chat_branch_preserves_files
    (s0 : WebsiteState) (llmRouter : Nat → LLMAttempt) (poolSize idx : Nat)
    (llmChat : LLMAttempt)
    (h : (mergeState s0 (intentRouterNode s0 llmRouter poolSize idx).part).requestIntent
           = some "question" ∨
         (mergeState s0 (intentRouterNode s0 llmRouter poolSize idx).part).requestIntent
           = some "explain") :
    routeIntent
        (mergeState s0 (intentRouterNode s0 llmRouter poolSize idx).part).requestIntent
      = "chat_response" ∧
    (runChatBranch (mergeState s0 (intentRouterNode s0 llmRouter poolSize idx).part)
        llmChat).files = s0.files := by
  constructor
  · rcases h with h | h <;> rw [h] <;> simp [routeIntent]
  · have h1 : (mergeState s0 (intentRouterNode s0 llmRouter poolSize idx).part).files
        = s0.files :=
      mergeState_files_of_none s0 _ (intentRouterNode_files_none s0 llmRouter poolSize idx)
    unfold runChatBranch
    rw [mergeState_files_of_none _ _ (chatResponseNode_files_none _ llmChat)]
    exact h1

/-- A state with an existing project (nonempty files map), whose user
prompt asks a question. -/
def questionState : WebsiteState :=
  { userPrompt := "where is the Featured Memories component?",
    files := [("src/App.tsx", { path := "src/App.tsx", content := "export default 1" })],
    blueprint := none, requestIntent := none, isModification := false,
    chatResponse := none, messages := [], errors := [], iterationCount := 0 }

theorem chat_branch_preserves_files_witness :
    (mergeState questionState
        (intentRouterNode questionState (fun _ => .ok "question") 11 0).part).requestIntent
      = some "question" ∧
    (runChatBranch
        (mergeState questionState
          (intentRouterNode questionState (fun _ => .ok "question") 11 0).part)
        .thrown).files = questionState.files := by
  have hq :
      (mergeState questionState
        (intentRouterNode questionState (fun _ => .ok "question") 11 0).part).requestIntent
      = some "question" := by decide
  have h := chat_branch_preserves_files questionState (fun _ => .ok "question") 11 0
    .thrown (Or.inl hq)
  exact ⟨hq, h.2⟩

theorem rotateApiKey_eq_mod (poolSize idx : Nat)
    (hp : 1 ≤ poolSize) (hi : idx < poolSize) :
    rotateApiKey poolSize idx = (idx + 1) % poolSize := by
  unfold rotateApiKey
  by_cases h : 1 < poolSize
  · simp [h]
  · have hp1 : poolSize = 1 := by omega
    subst hp1
    have hidx : idx = 0 := by omega
    subst hidx
    simp

/-- C6: retry with key rotation in the intent router — if the first
N-1 attempts throw and attempt N (N ≤ 3) resolves with content `c`,
the router returns the intent interpreted from `c`, has issued exactly
N model calls, and the shared credential index has advanced exactly
N-1 times modulo the pool size. -/
theorem retry_rotation_success
    (s : WebsiteState) (llm : Nat → LLMAttempt) (poolSize idx N : Nat) (c : String)
    (hexist : ¬(s.files = [] ∧ s.blueprint = none))
    (hp : 1 ≤ poolSize) (hi : idx < poolSize)
    (hN1 : 1 ≤ N) (hN3 : N ≤ 3)
    (hfail : ∀ k, 1 ≤ k → k < N → llm k = .thrown)
    (hok : llm N = .ok c) :
    (intentRouterNode s llm poolSize idx).part.requestIntent
        = some (interpretIntent c (hasQuestionKeywordsOf s.userPrompt)) ∧
    (intentRouterNode s llm poolSize idx).keyIdx = (idx + (N - 1)) % poolSize ∧
    (intentRouterNode s llm poolSize idx).llmCalls = N := by
  have hrot1 : rotateApiKey poolSize idx = (idx + 1) % poolSize :=
    rotateApiKey_eq_mod poolSize idx hp hi
  have hlt1 : (idx + 1) % poolSize < poolSize := Nat.mod_lt _ (by omega)
  have hrot2 : rotateApiKey poolSize ((idx + 1) % poolSize) = (idx + 2) % poolSize := by
    rw [rotateApiKey_eq_mod poolSize _ hp hlt1, Nat.mod_add_mod]
  unfold intentRouterNode
  rw [if_neg hexist]
  interval_cases N
  · rw [show (1 : Nat) - 1 = 0 from rfl, Nat.add_zero, Nat.mod_eq_of_lt hi]
    unfold routerLoop
    rw [hok]
    exact ⟨rfl, rfl, rfl⟩
  · have h1 := hfail 1 (by omega) (by omega)
    unfold routerLoop
    rw [h1]
    norm_num
    unfold routerLoop
    rw [hok, hrot1]
    exact ⟨rfl, rfl, rfl⟩
  · have h1 := hfail 1 (by omega) (by omega)
    have h2 := hfail 2 (by omega) (by omega)
    unfold routerLoop
    rw [h1]
    norm_num
    unfold routerLoop
    rw [h2]
    norm_num
    unfold routerLoop
    rw [hok, hrot1, hrot2]
    exact ⟨rfl, rfl, rfl⟩

/-- Oracle that throws on attempts 1 and 2 and succeeds on attempt 3. -/
def thirdTryLLM : Nat → LLMAttempt :=
  fun k => if k < 3 then .thrown else .ok "create"

/-- C7: if all three attempts of the page-extraction call fail to
produce a parsed page array, the stage returns the fixed minimal
two-page fallback — exactly a HomePage at route '/' and a NotFoundPage
at route '*' — instead of propagating the failure. -/
theorem page_extraction_fallback
    (llm : Nat → PageAttempt) (poolSize idx : Nat)
    (hfail : ∀ k, 1 ≤ k → k ≤ 3 → ∀ ps, llm k ≠ .pages ps) :
    (extractPagesRun llm poolSize idx).1 = fallbackPages ∧
    (extractPagesRun llm poolSize idx).1.map (fun p => (p.name, p.route)) =
      [("HomePage", "/"), ("NotFoundPage", "*")] := by
  have h1 := hfail 1 (by omega) (by omega)
  have h2 := hfail 2 (by omega) (by omega)
  have h3 := hfail 3 (by omega) (by omega)
  have hmain : (extractPagesRun llm poolSize idx).1 = fallbackPages := by
    cases e1 : llm 1 <;> cases e2 : llm 2 <;> cases e3 : llm 3 <;>
      simp_all [extractPagesRun, extractPagesWithLLM]
  refine ⟨hmain, ?_⟩
  rw [hmain]
  rfl

theorem page_extraction_fallback_witness :
    (extractPagesRun (fun _ => .thrown) 11 0).1 = fallbackPages ∧
    (extractPagesRun (fun _ => .thrown) 11 0).1.map (fun p => (p.name, p.route)) =
      [("HomePage", "/"), ("NotFoundPage", "*")] :=
  page_extraction_fallback (fun _ => .thrown) 11 0
    (fun _ _ _ _ h => PageAttempt.noConfusion h)

/-- C8: the driver installs the file/phase callbacks at the start of
one `generateWebsite` invocation, the graph runs with exactly those
callbacks registered, and the `finally` block clears both back to
`none` on the success path and on the thrown-error path alike — no
registration survives the invocation. -/
theorem callbacks_cleared_after_invocation
    (onFileGenerated onPhaseChange : Option Nat)
    (graphInvoke : CallbackRegistry → Except String GraphOutput)
    (reg : CallbackRegistry) :
    (generateWebsite onFileGenerated onPhaseChange graphInvoke reg).1 =
      graphInvoke ⟨onFileGenerated, onPhaseChange⟩ ∧
    (generateWebsite onFileGenerated onPhaseChange graphInvoke reg).2 =
      ⟨none, none⟩ := by
  unfold generateWebsite setFileCallback setPhaseCallback
  cases h : graphInvoke ⟨onFileGenerated, onPhaseChange⟩ <;> simp [h]

theorem retry_rotation_success_witness :
    (intentRouterNode questionState thirdTryLLM 11 0).part.requestIntent
        = some "create" ∧
    (intentRouterNode questionState thirdTryLLM 11 0).keyIdx = 2 ∧
    (intentRouterNode questionState thirdTryLLM 11 0).llmCalls = 3 := by
  have h := retry_rotation_success questionState thirdTryLLM 11 0 3 "create"
    (by intro hcon; exact absurd hcon.1 (by decide)) (by omega) (by omega)
    (by omega) (by omega)
    (fun k hk1 hk3 => by interval_cases k <;> rfl) rfl
  refine ⟨?_, by simpa using h.2.1, h.2.2⟩
  rw [h.1]
  decide

theorem selectLoop_success
    (cat : List (String × UICatalogEntry)) (llm : Nat → SelectAttempt)
    (cacheKey : String) (cache : List (String × UISelectionResult))
    (poolSize idx k : Nat) (names : List String)
    (hk1 : 1 ≤ k) (hk3 : k ≤ 3)
    (hfail : ∀ j, 1 ≤ j → j < k → llm j = .thrown)
    (hok : llm k = .ok names) :
    ∃ idxAfter,
      selectLoop cat llm cacheKey cache poolSize 3 1 idx 0 =
        ⟨mkSelectionResult cat names,
         (cacheKey, mkSelectionResult cat names) :: cache, idxAfter, k⟩ := by
  interval_cases k
  · refine ⟨idx, ?_⟩
    unfold selectLoop
    rw [hok]
  · have h1 := hfail 1 (by omega) (by omega)
    refine ⟨rotateApiKey poolSize idx, ?_⟩
    unfold selectLoop
    rw [h1]
    unfold selectLoop
    rw [hok]
  · have h1 := hfail 1 (by omega) (by omega)
    have h2 := hfail 2 (by omega) (by omega)
    refine ⟨rotateApiKey poolSize (rotateApiKey poolSize idx), ?_⟩
    unfold selectLoop
    rw [h1]
    unfold selectLoop
    rw [h2]
    unfold selectLoop
    rw [hok]

/-- C9: `UIService.selectComponents` memoizes by trimmed requirement
text — if a first call (cache miss, success on attempt k ≤ 3) stored
its result, then a second call whose requirements trim to the same
key returns exactly that cached result object, leaves the cache as it
was, and issues zero model requests, whatever its own LLM oracle
would answer. -/
theorem select_components_memoized
    (cat : List (String × UICatalogEntry)) (llm llm2 : Nat → SelectAttempt)
    (cache : List (String × UISelectionResult))
    (poolSize idx poolSize2 idx2 k : Nat) (names : List String)
    (req1 req2 : String)
    (hmiss : mapLookup cache (trimStr req1) = none)
    (hk1 : 1 ≤ k) (hk3 : k ≤ 3)
    (hfail : ∀ j, 1 ≤ j → j < k → llm j = .thrown)
    (hok : llm k = .ok names)
    (htrim : trimStr req2 = trimStr req1) :
    (selectComponents cat llm2
        (selectComponents cat llm cache poolSize idx req1).cache
        poolSize2 idx2 req2).result =
      (selectComponents cat llm cache poolSize idx req1).result ∧
    (selectComponents cat llm2
        (selectComponents cat llm cache poolSize idx req1).cache
        poolSize2 idx2 req2).cache =
      (selectComponents cat llm cache poolSize idx req1).cache ∧
    (selectComponents cat llm2
        (selectComponents cat llm cache poolSize idx req1).cache
        poolSize2 idx2 req2).modelCalls = 0 := by
  obtain ⟨idxAfter, hloop⟩ :=
    selectLoop_success cat llm (trimStr req1) cache poolSize idx k names
      hk1 hk3 hfail hok
  have hfirst : selectComponents cat llm cache poolSize idx req1 =
      ⟨mkSelectionResult cat names,
       (trimStr req1, mkSelectionResult cat names) :: cache, idxAfter, k⟩ := by
    simp only [selectComponents, hmiss]
    exact hloop
  rw [hfirst]
  simp only [selectComponents, mapLookup, htrim, if_pos rfl]
  exact ⟨rfl, rfl, rfl⟩

/-- Tiny component catalog standing in for the `text` object. -/
def sampleCatalog : List (String × UICatalogEntry) :=
  [("Aurora", { description := "Animated aurora background",
                codesnippet := "<Aurora />", dependencies := "framer-motion" })]

theorem select_components_memoized_witness :
    (selectComponents sampleCatalog (fun _ => .thrown)
        (selectComponents sampleCatalog (fun _ => .ok ["Aurora"]) [] 11 0
          "  a bakery site ").cache
        11 5 "a bakery site").result =
      (selectComponents sampleCatalog (fun _ => .ok ["Aurora"]) [] 11 0
        "  a bakery site ").result ∧
    (selectComponents sampleCatalog (fun _ => .thrown)
        (selectComponents sampleCatalog (fun _ => .ok ["Aurora"]) [] 11 0
          "  a bakery site ").cache
        11 5 "a bakery site").cache =
      (selectComponents sampleCatalog (fun _ => .ok ["Aurora"]) [] 11 0
        "  a bakery site ").cache ∧
    (selectComponents sampleCatalog (fun _ => .thrown)
        (selectComponents sampleCatalog (fun _ => .ok ["Aurora"]) [] 11 0
          "  a bakery site ").cache
        11 5 "a bakery site").modelCalls = 0 :=
  select_components_memoized sampleCatalog (fun _ => .ok ["Aurora"])
    (fun _ => .thrown) [] 11 0 11 5 1 ["Aurora"] "  a bakery site " "a bakery site"
    rfl (by omega) (by omega)
    (fun j hj1 hjlt => absurd (hj1.trans_lt hjlt) (by omega))
    rfl (by decide)

/-- C10: if every one of the three attempts of
`UIService.selectComponents` throws, the call returns the empty
result `{ selectedComponents := [], formattedForPrompt := "" }`
instead of propagating the exception (the model is total — every
oracle outcome yields a value), and this failure result is not stored
in the selection cache. -/
theorem select_components_exhaustion
    (cat : List (String × UICatalogEntry)) (llm : Nat → SelectAttempt)
    (cache : List (String × UISelectionResult)) (poolSize idx : Nat)
    (requirements : String)
    (hmiss : mapLookup cache (trimStr requirements) = none)
    (hfail : ∀ j, 1 ≤ j → j ≤ 3 → llm j = .thrown) :
    (selectComponents cat llm cache poolSize idx requirements).result =
      { selectedComponents := [], formattedForPrompt := "" } ∧
    (selectComponents cat llm cache poolSize idx requirements).cache = cache ∧
    (selectComponents cat llm cache poolSize idx requirements).modelCalls = 3 := by
  have h1 := hfail 1 (by omega) (by omega)
  have h2 := hfail 2 (by omega) (by omega)
  have h3 := hfail 3 (by omega) (by omega)
  simp only [selectComponents, hmiss]
  simp [selectLoop, h1, h2, h3]

theorem select_components_exhaustion_witness :
    (selectComponents sampleCatalog (fun _ => .thrown) [] 11 0 "a bakery site").result =
      { selectedComponents := [], formattedForPrompt := "" } ∧
    (selectComponents sampleCatalog (fun _ => .thrown) [] 11 0 "a bakery site").cache
      = [] ∧
    (selectComponents sampleCatalog (fun _ => .thrown) [] 11 0
      "a bakery site").modelCalls = 3 :=
  select_components_exhaustion sampleCatalog (fun _ => .thrown) [] 11 0
    "a bakery site" rfl (fun _ _ _ => rfl)
